import Mathlib

/-!
Verification development for the SQL-Agentic-Chat repository.

The embedding models the agent control loop of `sql_agent.py` and the
Flask conversation gateway of `app.py` as pure Lean functions:

* Python values raised as exceptions are modelled with `Except String`,
  the error string naming the exception;
* the SQLite database is an abstract state `σ` together with an
  execute/fetchall oracle `σ → String → String → Except String (List Row × σ)`
  (path, query), erroring exactly when `cursor.execute`/`fetchall` raises;
* the language model behind `model.invoke` is an oracle
  `List Msg → Except String Msg`, erroring when the model call raises
  (e.g. after exhausting its retries);
* LangGraph's `graph.stream(inputs, stream_mode="values")` is a fuel-indexed
  run of the compiled two-node graph yielding the list of state values,
  the fuel standing for LangGraph's recursion limit;
* `datetime.now()` is an abstract clock `Nat → Nat` indexed by the number
  of prior calls within the collection loop.
-/

namespace SqlAgenticChat

/-- A database row, as returned by `cursor.fetchall()` (one tuple). -/
abbrev Row : Type := List String

/-- A model-issued tool call request: `{name, args, id}` as carried on an
`AIMessage.tool_calls` entry. -/
structure ToolCall where
  name : String
  args : List (String × String)
  id : String
deriving Repr, DecidableEq

/-- LangChain message, restricted to the four shapes the program builds:
`SystemMessage`, human/user tuples, `AIMessage` (with tool calls), and
`ToolMessage` (content, tool name, originating call id). -/
inductive Msg where
  | system (content : String)
  | user (content : String)
  | assistant (content : String) (tool_calls : List ToolCall)
  | tool (content : String) (name : String) (tool_call_id : String)
deriving Repr, DecidableEq

/-- The `.content` attribute of a message (always a string here). -/
def Msg.content : Msg → String
  | .system c => c
  | .user c => c
  | .assistant c _ => c
  | .tool c _ _ => c

/-- The `.tool_calls` attribute. Only `AIMessage` carries tool calls; in the
graph it is only read on messages produced by the `llm` node. -/
def Msg.tool_calls : Msg → List ToolCall
  | .assistant _ tcs => tcs
  | _ => []

/-- The `.tool_call_id` attribute of a `ToolMessage` (empty for others). -/
def Msg.tool_call_id : Msg → String
  | .tool _ _ i => i
  | _ => ""

/-- The `.name` attribute of a `ToolMessage` (empty for others). -/
def Msg.tool_name : Msg → String
  | .tool _ n _ => n
  | _ => ""

/-! ## Model of the sqlparse library

`sqlparse.parse(query)[0].get_type()` classifies the first statement by its
leading DML/DDL keyword, normalised to upper case, returning `"UNKNOWN"`
when the statement starts with no such keyword. When the text holds no
statement at all (the empty string), `sqlparse.parse` returns an empty
tuple and the `[0]` index raises `IndexError`; that case is `none` below. -/

/-- Splits a character list into maximal whitespace-free words (`cur` is the
current word, reversed). -/
def words_go (cur : List Char) : List Char → List (List Char)
  | [] => if cur = [] then [] else [cur.reverse]
  | c :: cs =>
    if c.isWhitespace then
      (if cur = [] then words_go [] cs else cur.reverse :: words_go [] cs)
    else words_go (c :: cur) cs

/-- The whitespace-delimited words of a string (Python `str.split()`). -/
def py_words (s : String) : List String :=
  (words_go [] s.toList).map (fun cs => String.mk cs)

/-- Python `str.upper()`. -/
def py_upper (s : String) : String := String.mk (s.toList.map Char.toUpper)

/-- Python `str.lower()`. -/
def py_lower (s : String) : String := String.mk (s.toList.map Char.toLower)

/-- DML/DDL keywords recognised by sqlparse statement classification. -/
def sqlparse_dml_ddl : List String :=
  ["SELECT", "INSERT", "UPDATE", "DELETE", "MERGE", "REPLACE",
   "CREATE", "DROP", "ALTER", "GRANT", "REVOKE", "TRUNCATE"]

/-- First whitespace-delimited token of the SQL text, if any. -/
def sqlparse_first_token (s : String) : Option String :=
  (py_words s).head?

/-- Modelled from the sqlparse library: the classified statement type of
`sqlparse.parse(s)[0].get_type()`; `none` when the text holds no statement,
in which case the indexing in the source raises `IndexError`. -/
def sqlparse_get_type (s : String) : Option String :=
  match sqlparse_first_token s with
  | none => none
  | some w => some (if sqlparse_dml_ddl.contains (py_upper w) then py_upper w else "UNKNOWN")

/-! ## Query executor tools (`execute_titanic_sql_query`, `execute_finance_sql_query`) -/

/-- Connection lifecycle events observed during one tool call:
`sqlite3.connect(path)` and `conn.close()`. -/
inductive ConnEvent where
  | openedConn (path : String)
  | closedConn (path : String)
deriving Repr, DecidableEq

/-- The tool's returned payload: `{"result": rows}` or `{"error": msg}`. -/
inductive ToolOutput where
  | result (rows : List Row)
  | errorPayload (msg : String)
deriving Repr, DecidableEq

/-- Outcome of one run of a SQL tool over database state `σ`:
the returned payload or the raised exception, the database state after the
call, and the connection events that occurred. -/
structure SqlRun (σ : Type) where
  outcome : Except String ToolOutput
  db : σ
  conn_events : List ConnEvent
deriving Repr

/-- Shared body of `execute_titanic_sql_query` and `execute_finance_sql_query`:
classify the statement type; on `select`, connect, execute, fetch all rows and
close; otherwise return the read-only error payload without connecting.
`exec` abstracts `cursor.execute` + `fetchall` on the database at `path` and
errors exactly when that raises; the source closes the connection only after a
successful fetch (there is no `try`/`finally`), so a raising execution exits
with the connection still open. -/
def execute_sql_tool {σ : Type} (path : String)
    (exec : σ → String → String → Except String (List Row × σ))
    (db : σ) (query : String) : SqlRun σ :=
  match sqlparse_get_type query with
  | none => ⟨.error "IndexError: list index out of range", db, []⟩
  | some query_type =>
    if py_lower query_type == "select" then
      match exec db path query with
      | .ok (rows, db2) =>
          ⟨.ok (.result rows), db2, [.openedConn path, .closedConn path]⟩
      | .error e => ⟨.error e, db, [.openedConn path]⟩
    else
      ⟨.ok (.errorPayload "Only read-only queries are supported"), db, []⟩

/-- `execute_titanic_sql_query` from `sql_agent.py`. -/
def execute_titanic_sql_query {σ : Type}
    (exec : σ → String → String → Except String (List Row × σ))
    (db : σ) (query : String) : SqlRun σ :=
  execute_sql_tool "data/titanic.db" exec db query

/-- `execute_finance_sql_query` from `sql_agent.py`. -/
def execute_finance_sql_query {σ : Type}
    (exec : σ → String → String → Except String (List Row × σ))
    (db : σ) (query : String) : SqlRun σ :=
  execute_sql_tool "data/aug_personal_transactions_with_UserId.db" exec db query

/-! ## Tool dispatch (`call_tool`) -/

/-- The loop body of `call_tool` over the tool calls of the last message.
`invoke` abstracts `tools_by_name[name].invoke(args)`, erroring exactly when
that raises (unknown tool name, schema `ValidationError`, or an exception
escaping the tool function); its result string is the `ToolMessage` content.
The first component instruments the run with the ids of the calls actually
invoked; the second is the function's outcome — an exception during any call
propagates, discarding the outputs accumulated so far. -/
def call_tool_run (invoke : ToolCall → Except String String) :
    List ToolCall → List String × Except String (List Msg)
  | [] => ([], .ok [])
  | tc :: rest =>
    match invoke tc with
    | .error e => ([tc.id], .error e)
    | .ok r =>
      let tail := call_tool_run invoke rest
      (tc.id :: tail.1,
       tail.2.map (fun ms => Msg.tool r tc.name tc.id :: ms))

/-- `call_tool` from `sql_agent.py`: iterate over the tool calls of the last
message, invoking each and appending one `ToolMessage` per call; returns the
messages to append. Indexing `state["messages"][-1]` raises on an empty
list. -/
def call_tool (invoke : ToolCall → Except String String)
    (messages : List Msg) : Except String (List Msg) :=
  match messages.getLast? with
  | none => .error "IndexError: list index out of range"
  | some last => (call_tool_run invoke last.tool_calls).2

/-! ## Model node (`call_model`) and termination decision (`should_continue`) -/

/-- The fixed system instruction prepended by `call_model`. -/
def system_prompt : String :=
  "You are a helpful AI assistant with access to various tools including:\n" ++
  "        - SQL query execution on Titanic dataset\n" ++
  "        - SQL query execution on finance transaction dataset\n" ++
  "        - Database exploration tools (table names, columns, sample data)\n\n" ++
  "        When users ask questions, use the appropriate tools to provide accurate and helpful responses. \n" ++
  "        For SQL queries, always use the correct database (Titanic or aug_personal_transactions_with_userid) based on the context.\n" ++
  "        Be concise but thorough in your explanations."

/-- `call_model` from `sql_agent.py`: prepend the system message, invoke the
model, and return the single-response list to be appended to the state.
`model` abstracts `model.invoke`, erroring when the underlying service call
raises (e.g. after exhausting its retry bound). -/
def call_model (model : List Msg → Except String Msg)
    (messages : List Msg) : Except String (List Msg) :=
  match model (Msg.system system_prompt :: messages) with
  | .error e => .error e
  | .ok response => .ok [response]

/-- `should_continue` from `sql_agent.py`: "end" when the last message has no
tool calls, "continue" otherwise. Indexing `messages[-1]` raises on an empty
list. -/
def should_continue (messages : List Msg) : Except String String :=
  match messages.getLast? with
  | none => .error "IndexError: list index out of range"
  | some last => if last.tool_calls.isEmpty then .ok "end" else .ok "continue"

/-! ## The compiled graph of `app.py` and `graph.stream` -/

/-- Graph nodes: the two added nodes plus the terminal `END`. -/
inductive Node where
  | llm
  | tools
  | finish
deriving Repr, DecidableEq

/-- The mapping handed to `add_conditional_edges` after the `llm` node. -/
def conditional_edge_map : List (String × Node) :=
  [("continue", .tools), ("end", .finish)]

/-- One super-step of the compiled graph: run the node's function, append its
returned messages to the state via the `add_messages` reducer, and follow the
out-edge (the conditional edge after `llm`, the fixed edge `tools → llm`). -/
def graph_step (model : List Msg → Except String Msg)
    (invoke : ToolCall → Except String String) :
    Node × List Msg → Except String (Node × List Msg)
  | (.llm, messages) =>
    match call_model model messages with
    | .error e => .error e
    | .ok new =>
      match should_continue (messages ++ new) with
      | .error e => .error e
      | .ok signal =>
        match conditional_edge_map.lookup signal with
        | some n => .ok (n, messages ++ new)
        | none => .error "InvalidUpdateError"
  | (.tools, messages) =>
    match call_tool invoke messages with
    | .error e => .error e
    | .ok new => .ok (.llm, messages ++ new)
  | (.finish, messages) => .ok (.finish, messages)

/-- The states produced after each super-step of a run starting at the given
node, stopping at `END`; fuel models LangGraph's recursion limit, whose
exhaustion raises `GraphRecursionError`. An exception in any step propagates,
discarding the collected values. -/
def stream_go (model : List Msg → Except String Msg)
    (invoke : ToolCall → Except String String) :
    Nat → Node × List Msg → Except String (List (List Msg))
  | 0, _ => .error "GraphRecursionError"
  | fuel + 1, (node, messages) =>
    if node = Node.finish then .ok []
    else
      match graph_step model invoke (node, messages) with
      | .error e => .error e
      | .ok st2 =>
        match stream_go model invoke fuel st2 with
        | .error e => .error e
        | .ok rest => .ok (st2.2 :: rest)

/-- `graph.stream(inputs, stream_mode="values")` as consumed by `app.py`:
the input state value first, then the full state after each super-step,
starting at the entry point `llm`. -/
def graph_stream (model : List Msg → Except String Msg)
    (invoke : ToolCall → Except String String)
    (fuel : Nat) (inputs : List Msg) : Except String (List (List Msg)) :=
  (stream_go model invoke fuel (.llm, inputs)).map (inputs :: ·)

/-! ## Conversation gateway (`app.py`, `chat` handler) -/

/-- One entry of the caller-supplied `conversation_history`. -/
structure HistEntry where
  type : String
  content : String
deriving Repr, DecidableEq

/-- The JSON body of a `POST /chat` request; `message` is `none` when the
field is absent (`data.get('message', '')` then yields the empty string). -/
structure ChatReq where
  message : Option String
  conversation_history : List HistEntry
deriving Repr, DecidableEq

/-- A collected message of the response's `all_messages` list. -/
structure CollectedMsg where
  type : String
  content : String
  timestamp : Nat
deriving Repr, DecidableEq

/-- The JSON body of the gateway's response: success payload or error. -/
inductive ChatBody where
  | success (response : String) (all_messages : List CollectedMsg)
  | failure (error : String)
deriving Repr, DecidableEq

/-- HTTP status and body returned by the `chat` handler. -/
structure ChatResponse where
  status : Nat
  body : ChatBody
deriving Repr, DecidableEq

/-- The history-conversion loop of the `chat` handler: entries tagged
`"user"`/`"agent"` become user/assistant messages, in order; any other entry
is skipped by the `if`/`elif` with no `else`. -/
def convert_history (history : List HistEntry) : List Msg :=
  history.filterMap (fun m =>
    if m.type == "user" then some (Msg.user m.content)
    else if m.type == "agent" then some (Msg.assistant m.content [])
    else none)

/-- The synthetic error-context message built in the `except` block
(the f-string interpolating `user_message` and `error_msg`). -/
def error_context (user_message error_msg : String) : String :=
  "\nThe user asked: \"" ++ user_message ++ "\"\n\n" ++
  "But an error occurred: " ++ error_msg ++ "\n\n" ++
  "Please provide a helpful response to the user\x27s original question, taking into account this error context. \n" ++
  "If the error suggests a missing dependency or configuration issue, please explain what might be needed.\n" ++
  "If it\x27s a tool-specific error, try to answer the question using available information.\n"

/-- The apology prepended to a successful recovery response. -/
def apology_text : String :=
  "I encountered an issue while processing your request, but I\x27ll try to help: "

/-- The error body returned with status 500 (interpolating the original
error message). -/
def error_body (error_msg : String) : String :=
  "I encountered an error: " ++ error_msg ++
  ". Please try rephrasing your question or check if all dependencies are properly installed."

/-- The collection loop of the `chat` handler over the streamed state values:
for each state whose message list is nonempty and whose last message has
truthy (non-empty) content, append an `"agent"` entry stamped with the
current time and remember that content as the final response. `k` counts the
`datetime.now()` calls made so far. -/
def collect_go (clock : Nat → Nat) (k : Nat) (acc : List CollectedMsg)
    (final : String) : List (List Msg) → List CollectedMsg × String
  | [] => (acc, final)
  | v :: rest =>
    match v.getLast? with
    | some m =>
      if m.content ≠ "" then
        collect_go clock (k + 1) (acc ++ [⟨"agent", m.content, clock k⟩]) m.content rest
      else collect_go clock k acc final rest
    | none => collect_go clock k acc final rest

/-- Collection of `all_messages` and `final_response` from the streamed state
values, starting from the empty list and the empty string. -/
def collect (clock : Nat → Nat) (vals : List (List Msg)) :
    List CollectedMsg × String :=
  collect_go clock 0 [] "" vals

/-- The `chat` handler of `app.py`: reject an empty (or absent) `message`
with 400; otherwise convert the history, append the user message, stream the
graph and collect; on an exception from that primary run, run one recovery
pass on the single synthetic error-context message, returning the apology-
prefixed recovery answer if it is non-empty, and a 500 describing the
original failure if the recovery pass fails or yields an empty response. -/
def chat (model : List Msg → Except String Msg)
    (invoke : ToolCall → Except String String)
    (clock : Nat → Nat) (fuel : Nat) (req : ChatReq) : ChatResponse :=
  let user_message := req.message.getD ""
  if user_message == "" then ⟨400, .failure "No message provided"⟩
  else
    let messages := convert_history req.conversation_history ++ [Msg.user user_message]
    match graph_stream model invoke fuel messages with
    | .ok vals =>
      let c := collect clock vals
      ⟨200, .success c.2 c.1⟩
    | .error e =>
      let retry_inputs := [Msg.user (error_context user_message e)]
      match graph_stream model invoke fuel retry_inputs with
      | .ok vals2 =>
        let retry_response := (collect clock vals2).2
        if retry_response ≠ "" then
          ⟨200, .success (apology_text ++ retry_response)
            [⟨"agent", retry_response, clock 0⟩]⟩
        else ⟨500, .failure (error_body e)⟩
      | .error _ => ⟨500, .failure (error_body e)⟩

/-- The contents the collection loop picks up: the last message's content of
each streamed state value with a nonempty message list, kept when non-empty. -/
def streamed_last_contents (vals : List (List Msg)) : List String :=
  vals.filterMap (fun v =>
    v.getLast?.bind (fun m => if m.content ≠ "" then some m.content else none))

/-- The assistant messages with non-empty content of a message list. -/
def assistant_contents (messages : List Msg) : List String :=
  messages.filterMap (fun m =>
    match m with
    | .assistant c _ => if c ≠ "" then some c else none
    | _ => none)

/-! ## Concrete fixtures for witnesses and counterexamples -/

/-- A model stub that always answers directly, with no tool calls. -/
def modelAnswer42 : List Msg → Except String Msg :=
  fun _ => .ok (Msg.assistant "The answer is 42." [])

/-- A model stub that raises on the user question `"ask"` (e.g. retries
exhausted) and answers `"recovered"` on any other last message. -/
def modelFailThenRecover : List Msg → Except String Msg :=
  fun messages =>
    match messages.getLast? with
    | some (Msg.user u) =>
      if u = "ask" then .error "boom" else .ok (Msg.assistant "recovered" [])
    | _ => .ok (Msg.assistant "recovered" [])

/-- A tool-invocation stub that always returns normally. -/
def invokeOk : ToolCall → Except String String := fun _ => .ok "ok"

/-- A tool-invocation stub where the call with id `"call_1"` raises a schema
validation error and every other call returns normally. -/
def invokeFailFirst : ToolCall → Except String String :=
  fun tc =>
    if tc.id = "call_1" then
      .error "ValidationError: 1 validation error for SQLQueryInput"
    else .ok "7 rows"

/-- A tool-invocation stub where the call with id `"call_2"` raises and every
other call returns normally. -/
def invokeFailSecond : ToolCall → Except String String :=
  fun tc =>
    if tc.id = "call_2" then
      .error "ValidationError: 1 validation error for SQLQueryInput"
    else .ok "7 rows"

/-- A tool-invocation stub that always raises a schema validation error. -/
def invokeRaise : ToolCall → Except String String :=
  fun _ => .error "ValidationError: 1 validation error for SQLQueryInput"

/-- A two-call batch whose first call will fail under `invokeFailFirst`. -/
def batchTwo : List ToolCall :=
  [⟨"execute_titanic_sql_query", [("bad_arg", "1")], "call_1"⟩,
   ⟨"get_table_names", [], "call_2"⟩]

/-- A three-call batch whose middle call will fail under `invokeFailSecond`. -/
def batchThree : List ToolCall :=
  [⟨"get_table_names", [], "call_1"⟩,
   ⟨"execute_titanic_sql_query", [("bad_arg", "1")], "call_2"⟩,
   ⟨"get_table_columns", [("table_name", "t")], "call_3"⟩]

/-- A database oracle where every execution raises (e.g. a missing table). -/
def execNoSuchTable : Nat → String → String → Except String (List Row × Nat) :=
  fun _ _ _ => .error "sqlite3.OperationalError: no such table: missing"

/-- A database oracle where every execution succeeds with no rows and leaves
the state unchanged. -/
def execOkEmpty : Nat → String → String → Except String (List Row × Nat) :=
  fun db _ _ => .ok ([], db)

/-! ## Theorems -/

/-- C1: for every SQL text whose classified statement type is anything other
than SELECT, `execute_titanic_sql_query` and `execute_finance_sql_query`
return the `{error: "Only read-only queries are supported"}` payload without
opening a database connection, and the database state is unchanged. -/
theorem C1_nonselect_rejected_without_connection {σ : Type}
    (exec : σ → String → String → Except String (List Row × σ)) (db : σ)
    (query t : String)
    (h1 : sqlparse_get_type query = some t) (h2 : py_lower t ≠ "select") :
    execute_titanic_sql_query exec db query =
      ⟨.ok (.errorPayload "Only read-only queries are supported"), db, []⟩ ∧
    execute_finance_sql_query exec db query =
      ⟨.ok (.errorPayload "Only read-only queries are supported"), db, []⟩ := by
  unfold execute_titanic_sql_query execute_finance_sql_query execute_sql_tool
  rw [h1]
  simp [h2]

/-- Witness for C1 at the statement `DROP TABLE passengers`. -/
theorem C1_witness :
    sqlparse_get_type "DROP TABLE passengers" = some "DROP" ∧
    py_lower "DROP" ≠ "select" ∧
    execute_titanic_sql_query execOkEmpty 0 "DROP TABLE passengers" =
      ⟨.ok (.errorPayload "Only read-only queries are supported"), 0, []⟩ :=
  ⟨rfl, by decide,
    (C1_nonselect_rejected_without_connection execOkEmpty 0
      "DROP TABLE passengers" "DROP" rfl (by decide)).1⟩

/-- C7: a `POST /chat` request whose `message` is empty or absent gets status
400 with body `{error: "No message provided"}`; the response does not depend
on the model, the tools, the clock or the fuel, so the agent loop is never
invoked. -/
theorem C7_empty_message_400
    (model : List Msg → Except String Msg)
    (invoke : ToolCall → Except String String)
    (clock : Nat → Nat) (fuel : Nat) (req : ChatReq)
    (h : req.message = none ∨ req.message = some "") :
    chat model invoke clock fuel req = ⟨400, .failure "No message provided"⟩ := by
  unfold chat
  rcases h with h | h <;> rw [h] <;> rfl

/-- Witness for C7 at the request `{message: "", conversation_history: []}`. -/
theorem C7_witness :
    chat modelAnswer42 invokeOk id 10 ⟨some "", []⟩ =
      ⟨400, .failure "No message provided"⟩ :=
  C7_empty_message_400 modelAnswer42 invokeOk id 10 ⟨some "", []⟩ (Or.inr rfl)

/-- C10: a history entry whose `type` is neither `"user"` nor `"agent"` is
silently dropped by the history conversion — it never reaches the agent loop
and produces no error: the handler behaves exactly as if the entry were
absent. -/
theorem C10_drops_unknown_history_types
    (model : List Msg → Except String Msg)
    (invoke : ToolCall → Except String String)
    (clock : Nat → Nat) (fuel : Nat) (message : Option String)
    (pre post : List HistEntry) (e : HistEntry)
    (h1 : e.type ≠ "user") (h2 : e.type ≠ "agent") :
    convert_history (pre ++ e :: post) = convert_history (pre ++ post) ∧
    chat model invoke clock fuel ⟨message, pre ++ e :: post⟩ =
      chat model invoke clock fuel ⟨message, pre ++ post⟩ := by
  have hc : convert_history (pre ++ e :: post) = convert_history (pre ++ post) := by
    unfold convert_history
    simp [List.filterMap_append, List.filterMap_cons, h1, h2]
  refine ⟨hc, ?_⟩
  unfold chat
  rw [hc]

/-- Witness for C10 at a history entry tagged `"tool"`. -/
theorem C10_witness :
    convert_history [⟨"user", "hello"⟩, ⟨"tool", "raw tool output"⟩] =
      convert_history [⟨"user", "hello"⟩] ∧
    chat modelAnswer42 invokeOk id 10
        ⟨some "hi", [⟨"user", "hello"⟩, ⟨"tool", "raw tool output"⟩]⟩ =
      chat modelAnswer42 invokeOk id 10 ⟨some "hi", [⟨"user", "hello"⟩]⟩ :=
  C10_drops_unknown_history_types modelAnswer42 invokeOk id 10 (some "hi")
    [⟨"user", "hello"⟩] [] ⟨"tool", "raw tool output"⟩ (by decide) (by decide)

/-- `call_model` wraps the model response in a singleton message list. -/
theorem call_model_ok (model : List Msg → Except String Msg)
    (messages : List Msg) (response : Msg)
    (h : model (Msg.system system_prompt :: messages) = .ok response) :
    call_model model messages = .ok [response] := by
  unfold call_model
  rw [h]

/-- `should_continue` on a state ending in `m` decides from `m`'s tool calls. -/
theorem should_continue_concat (ms : List Msg) (m : Msg) :
    should_continue (ms ++ [m]) =
      .ok (if m.tool_calls.isEmpty then "end" else "continue") := by
  unfold should_continue
  rw [List.getLast?_concat]
  cases hb : m.tool_calls.isEmpty <;> simp [hb]

/-- C2: after the `llm` node the loop reaches the terminal `END` node exactly
when the freshly appended assistant message carries no tool calls, and goes
to tool dispatch when it carries some; `should_continue` reads only the last
message's tool calls (never its content); and the `tools` node always routes
back to `llm`. -/
theorem C2_done_iff_no_tool_calls
    (model : List Msg → Except String Msg)
    (invoke : ToolCall → Except String String)
    (messages : List Msg) (response : Msg)
    (h : model (Msg.system system_prompt :: messages) = .ok response) :
    (graph_step model invoke (.llm, messages) =
        .ok (.finish, messages ++ [response]) ↔ response.tool_calls = []) ∧
    (response.tool_calls ≠ [] →
      graph_step model invoke (.llm, messages) =
        .ok (.tools, messages ++ [response])) ∧
    (∀ (ms : List Msg) (m m2 : Msg), m.tool_calls = m2.tool_calls →
      should_continue (ms ++ [m]) = should_continue (ms ++ [m2])) ∧
    (∀ outs, call_tool invoke messages = .ok outs →
      graph_step model invoke (.tools, messages) =
        .ok (.llm, messages ++ outs)) := by
  refine ⟨?_, ?_, ?_, ?_⟩
  · cases htc : response.tool_calls with
    | nil =>
      have hstep : graph_step model invoke (.llm, messages) =
          .ok (.finish, messages ++ [response]) := by
        simp only [graph_step, call_model_ok model messages response h,
          should_continue_concat, htc]
        rfl
      simp [hstep]
    | cons a l =>
      have hstep : graph_step model invoke (.llm, messages) =
          .ok (.tools, messages ++ [response]) := by
        simp only [graph_step, call_model_ok model messages response h,
          should_continue_concat, htc]
        rfl
      rw [hstep]
      simp
  · intro htc
    cases hr : response.tool_calls with
    | nil => exact absurd hr htc
    | cons a l =>
      simp only [graph_step, call_model_ok model messages response h,
        should_continue_concat, hr]
      rfl
  · intro ms m m2 htc
    rw [should_continue_concat, should_continue_concat, htc]
  · intro outs houts
    simp only [graph_step, houts]

/-- Witness for C2: a direct answer with no tool calls ends the loop. -/
theorem C2_witness :
    graph_step modelAnswer42 invokeOk (.llm, [Msg.user "q"]) =
      .ok (.finish, [Msg.user "q", Msg.assistant "The answer is 42." []]) :=
  (C2_done_iff_no_tool_calls modelAnswer42 invokeOk [Msg.user "q"]
    (Msg.assistant "The answer is 42." []) rfl).1.mpr rfl

/-- The dispatch loop of `call_tool` over a batch where every invocation
returns normally with result `res tc`: one `ToolMessage` per call, carrying
that call's name and id, in batch order, and every call invoked. -/
theorem call_tool_run_all_ok (invoke : ToolCall → Except String String)
    (res : ToolCall → String) (tcs : List ToolCall)
    (h : ∀ tc ∈ tcs, invoke tc = .ok (res tc)) :
    call_tool_run invoke tcs =
      (tcs.map ToolCall.id,
       .ok (tcs.map (fun tc => Msg.tool (res tc) tc.name tc.id))) := by
  induction tcs with
  | nil => rfl
  | cons tc rest ih =>
    have htc := h tc (List.mem_cons_self tc rest)
    have hrest := ih (fun x hx => h x (List.mem_cons_of_mem tc hx))
    unfold call_tool_run
    rw [htc, hrest]
    rfl

/-- C3 counterexample: the per-batch result count is not unconditional — on a
two-call batch whose invocations raise, the tool-dispatch step appends no
`ToolMessage` at all (it propagates the exception), so the number of results
(zero) differs from the number of requests (two). -/
theorem C3_counterexample :
    call_tool invokeRaise [Msg.assistant "" batchTwo] =
      .error "ValidationError: 1 validation error for SQLQueryInput" ∧
    batchTwo.length = 2 :=
  ⟨rfl, rfl⟩

/-- C3 (amended): for every batch in which each invocation returns normally,
the tool-dispatch step appends exactly one `ToolMessage` per
`ToolCallRequest`, each carrying its originating request's call id (and tool
name), in request order; a raising invocation instead aborts the dispatch
step with nothing appended. -/
theorem C3_one_result_per_request
    (invoke : ToolCall → Except String String) (res : ToolCall → String)
    (msgs : List Msg) (content : String) (tcs : List ToolCall)
    (h : ∀ tc ∈ tcs, invoke tc = .ok (res tc)) :
    call_tool invoke (msgs ++ [Msg.assistant content tcs]) =
      .ok (tcs.map (fun tc => Msg.tool (res tc) tc.name tc.id)) ∧
    (tcs.map (fun tc => Msg.tool (res tc) tc.name tc.id)).length = tcs.length ∧
    (tcs.map (fun tc => Msg.tool (res tc) tc.name tc.id)).map Msg.tool_call_id =
      tcs.map ToolCall.id := by
  refine ⟨?_, by simp, ?_⟩
  · unfold call_tool
    rw [List.getLast?_concat]
    simp only [Msg.tool_calls, call_tool_run_all_ok invoke res tcs h]
  · simp [Msg.tool_call_id]

/-- Witness for C3 on a concrete two-call batch. -/
theorem C3_witness :
    call_tool invokeOk [Msg.assistant "" batchTwo] =
      .ok [Msg.tool "ok" "execute_titanic_sql_query" "call_1",
           Msg.tool "ok" "get_table_names" "call_2"] :=
  (C3_one_result_per_request invokeOk (fun _ => "ok") [] "" batchTwo
    (fun _ _ => rfl)).1

/-- C4 counterexample: when the first call of a two-call batch raises a
schema validation error, `call_tool` propagates the exception — no
error-carrying `ToolMessage` is appended — and the sibling call (id
`"call_2"`) is never invoked: the dispatch loop has invoked only
`"call_1"`. -/
theorem C4_counterexample :
    call_tool invokeFailFirst [Msg.assistant "" batchTwo] =
      .error "ValidationError: 1 validation error for SQLQueryInput" ∧
    (call_tool_run invokeFailFirst batchTwo).1 = ["call_1"] :=
  ⟨rfl, rfl⟩

/-- C4 (amended): when an individual tool call in a batch raises — including
arguments failing schema validation — the exception propagates out of the
tool-dispatch step: the calls before it are invoked but their results are
discarded, no error-carrying `ToolMessage` is produced, and the remaining
sibling calls are never dispatched; the loop run aborts with that error. -/
theorem C4_failure_aborts_batch
    (invoke : ToolCall → Except String String) (res : ToolCall → String)
    (pre post : List ToolCall) (tc : ToolCall) (e : String)
    (msgs : List Msg) (content : String)
    (hpre : ∀ p ∈ pre, invoke p = .ok (res p))
    (htc : invoke tc = .error e) :
    call_tool invoke (msgs ++ [Msg.assistant content (pre ++ tc :: post)]) =
      .error e ∧
    (call_tool_run invoke (pre ++ tc :: post)).1 =
      pre.map ToolCall.id ++ [tc.id] := by
  have key : call_tool_run invoke (pre ++ tc :: post) =
      (pre.map ToolCall.id ++ [tc.id], .error e) := by
    induction pre with
    | nil =>
      rw [List.nil_append]
      unfold call_tool_run
      rw [htc]
      rfl
    | cons p rest ih =>
      have hp := hpre p (List.mem_cons_self p rest)
      have hrest := ih (fun x hx => hpre x (List.mem_cons_of_mem p hx))
      rw [List.cons_append]
      unfold call_tool_run
      rw [hp, hrest]
      rfl
  constructor
  · unfold call_tool
    rw [List.getLast?_concat]
    simp only [Msg.tool_calls, key]
  · rw [key]

/-- Witness for the amended C4: the middle call of a three-call batch fails,
the first call's result is discarded and the third is never invoked. -/
theorem C4_witness :
    call_tool invokeFailSecond [Msg.assistant "" batchThree] =
      .error "ValidationError: 1 validation error for SQLQueryInput" ∧
    (call_tool_run invokeFailSecond batchThree).1 = ["call_1", "call_2"] := by
  have h := C4_failure_aborts_batch invokeFailSecond (fun _ => "7 rows")
    [⟨"get_table_names", [], "call_1"⟩]
    [⟨"get_table_columns", [("table_name", "t")], "call_3"⟩]
    ⟨"execute_titanic_sql_query", [("bad_arg", "1")], "call_2"⟩
    "ValidationError: 1 validation error for SQLQueryInput" [] ""
    (by intro p hp; rw [List.mem_singleton] at hp; subst hp; rfl) rfl
  exact ⟨h.1, h.2⟩

/-- C5 counterexample: the query tools are not total — on the empty string
the sqlparse classification holds no statement and the `[0]` index raises
`IndexError`, and on a SELECT whose execution fails the sqlite exception
propagates; neither exit is a structured error payload. -/
theorem C5_counterexample :
    (execute_titanic_sql_query execNoSuchTable 0 "").outcome =
      .error "IndexError: list index out of range" ∧
    (execute_finance_sql_query execNoSuchTable 0 "").outcome =
      .error "IndexError: list index out of range" ∧
    (execute_titanic_sql_query execNoSuchTable 0 "SELECT * FROM missing").outcome =
      .error "sqlite3.OperationalError: no such table: missing" :=
  ⟨rfl, rfl, rfl⟩

/-- C5 (amended): the query tools return a structured payload exactly when
the statement classifies: a non-SELECT type yields the read-only error
payload and a successfully executed SELECT yields rows; but text holding no
statement raises `IndexError`, and a raising execution propagates its
exception — both escape the tool uncaught (the gateway's handler is the
first to catch them). Both tools are instances of the shared body at their
database paths. -/
theorem C5_totality_boundary {σ : Type}
    (exec : σ → String → String → Except String (List Row × σ))
    (db : σ) (query path : String) :
    (sqlparse_get_type query = none →
      (execute_sql_tool path exec db query).outcome =
        .error "IndexError: list index out of range") ∧
    (∀ t, sqlparse_get_type query = some t → py_lower t ≠ "select" →
      (execute_sql_tool path exec db query).outcome =
        .ok (.errorPayload "Only read-only queries are supported")) ∧
    (∀ t rows db2, sqlparse_get_type query = some t → py_lower t = "select" →
      exec db path query = .ok (rows, db2) →
      (execute_sql_tool path exec db query).outcome = .ok (.result rows)) ∧
    (∀ t e, sqlparse_get_type query = some t → py_lower t = "select" →
      exec db path query = .error e →
      (execute_sql_tool path exec db query).outcome = .error e) ∧
    execute_titanic_sql_query exec db query =
      execute_sql_tool "data/titanic.db" exec db query ∧
    execute_finance_sql_query exec db query =
      execute_sql_tool "data/aug_personal_transactions_with_UserId.db" exec db query := by
  refine ⟨?_, ?_, ?_, ?_, rfl, rfl⟩
  · intro hn
    unfold execute_sql_tool
    rw [hn]
  · intro t ht hne
    unfold execute_sql_tool
    rw [ht]
    simp [hne]
  · intro t rows db2 ht hsel hexec
    unfold execute_sql_tool
    rw [ht]
    simp [hsel, hexec]
  · intro t e ht hsel hexec
    unfold execute_sql_tool
    rw [ht]
    simp [hsel, hexec]

/-- Witness for the amended C5 at a successfully executed SELECT. -/
theorem C5_witness :
    (execute_sql_tool "data/titanic.db" execOkEmpty 0 "SELECT * FROM passengers").outcome =
      .ok (.result []) :=
  (C5_totality_boundary execOkEmpty 0 "SELECT * FROM passengers"
      "data/titanic.db").2.2.1 "SELECT" [] 0 rfl (by decide) rfl

/-- C6 counterexample: on a SELECT whose execution raises, the call exits
with the connection opened and never closed — the close does not happen on
the exception path. -/
theorem C6_counterexample :
    (execute_titanic_sql_query execNoSuchTable 0 "SELECT * FROM missing").conn_events =
      [.openedConn "data/titanic.db"] ∧
    ((execute_titanic_sql_query execNoSuchTable 0 "SELECT * FROM missing").conn_events.contains
        (ConnEvent.closedConn "data/titanic.db")) = false :=
  ⟨rfl, rfl⟩

/-- C6 (amended): for a SELECT-classified query the connection is opened and
closed when execution succeeds, but when execution raises the call exits
with the connection opened and not closed (there is no `try`/`finally`);
both tools are instances of the shared body at their paths. -/
theorem C6_close_on_success_only {σ : Type}
    (exec : σ → String → String → Except String (List Row × σ))
    (db : σ) (query path t : String)
    (ht : sqlparse_get_type query = some t) (hsel : py_lower t = "select") :
    (∀ rows db2, exec db path query = .ok (rows, db2) →
      (execute_sql_tool path exec db query).conn_events =
        [.openedConn path, .closedConn path]) ∧
    (∀ e, exec db path query = .error e →
      (execute_sql_tool path exec db query).conn_events = [.openedConn path]) ∧
    execute_titanic_sql_query exec db query =
      execute_sql_tool "data/titanic.db" exec db query ∧
    execute_finance_sql_query exec db query =
      execute_sql_tool "data/aug_personal_transactions_with_UserId.db" exec db query := by
  refine ⟨?_, ?_, rfl, rfl⟩
  · intro rows db2 hexec
    unfold execute_sql_tool
    rw [ht]
    simp [hsel, hexec]
  · intro e hexec
    unfold execute_sql_tool
    rw [ht]
    simp [hsel, hexec]

/-- Witness for the amended C6: the success path opens then closes. -/
theorem C6_witness :
    (execute_sql_tool "data/titanic.db" execOkEmpty 0 "SELECT * FROM passengers").conn_events =
      [.openedConn "data/titanic.db", .closedConn "data/titanic.db"] :=
  (C6_close_on_success_only execOkEmpty 0 "SELECT * FROM passengers"
      "data/titanic.db" "SELECT" rfl (by decide)).1 [] 0 rfl

/-- C8: when the primary agent-loop run raises, the gateway performs exactly
one recovery pass on the single synthetic user message `error_context`
(which carries the original question and the error verbatim): if that pass
streams successfully and its collected final content is non-empty, the
response is 200 with that content prefixed by the apology; if it collects
nothing or itself raises, the response is 500 describing the original
failure. -/
theorem C8_recovery_pass
    (model : List Msg → Except String Msg)
    (invoke : ToolCall → Except String String)
    (clock : Nat → Nat) (fuel : Nat) (u e : String) (hist : List HistEntry)
    (hu : u ≠ "")
    (hprimary : graph_stream model invoke fuel
        (convert_history hist ++ [Msg.user u]) = .error e) :
    (∀ vals2, graph_stream model invoke fuel
        [Msg.user (error_context u e)] = .ok vals2 →
      (collect clock vals2).2 ≠ "" →
      chat model invoke clock fuel ⟨some u, hist⟩ =
        ⟨200, .success (apology_text ++ (collect clock vals2).2)
          [⟨"agent", (collect clock vals2).2, clock 0⟩]⟩) ∧
    (∀ vals2, graph_stream model invoke fuel
        [Msg.user (error_context u e)] = .ok vals2 →
      (collect clock vals2).2 = "" →
      chat model invoke clock fuel ⟨some u, hist⟩ =
        ⟨500, .failure (error_body e)⟩) ∧
    (∀ e2, graph_stream model invoke fuel
        [Msg.user (error_context u e)] = .error e2 →
      chat model invoke clock fuel ⟨some u, hist⟩ =
        ⟨500, .failure (error_body e)⟩) := by
  have hbeq : (u == "") = false := beq_eq_false_iff_ne.mpr hu
  refine ⟨?_, ?_, ?_⟩
  · intro vals2 h2 h3
    unfold chat
    simp only [Option.getD, hbeq, Bool.false_eq_true, if_false, hprimary, h2, h3,
      ne_eq, not_false_iff, if_true]
  · intro vals2 h2 h3
    unfold chat
    simp only [Option.getD, hbeq, Bool.false_eq_true, if_false, hprimary, h2, h3,
      ne_eq, not_true, if_false]
  · intro e2 h2
    unfold chat
    simp only [Option.getD, hbeq, Bool.false_eq_true, if_false, hprimary, h2]

/-- Witness for C8: the model raises on the question `"ask"` but answers the
recovery pass, so the gateway returns the apology-prefixed recovery answer. -/
theorem C8_witness :
    chat modelFailThenRecover invokeOk id 10 ⟨some "ask", []⟩ =
      ⟨200, .success (apology_text ++ "recovered")
        [⟨"agent", "recovered", 0⟩]⟩ :=
  (C8_recovery_pass modelFailThenRecover invokeOk id 10 "ask" "boom" []
      (by decide) rfl).1
    [[Msg.user (error_context "ask" "boom")],
     [Msg.user (error_context "ask" "boom"), Msg.assistant "recovered" []]]
    rfl (by decide)

/-- The collection loop described declaratively: starting with `k` clock
calls made, accumulator `acc` and current final response `final`, it appends
one `"agent"` entry per streamed value whose last message has non-empty
content, stamped with successive clock values, and ends on the last such
content. -/
theorem collect_go_spec (clock : Nat → Nat) (vals : List (List Msg)) :
    ∀ (k : Nat) (acc : List CollectedMsg) (final : String),
    collect_go clock k acc final vals =
      (acc ++ (List.enumFrom k (streamed_last_contents vals)).map
          (fun p => ⟨"agent", p.2, clock p.1⟩),
        (streamed_last_contents vals).getLastD final) := by
  induction vals with
  | nil =>
    intro k acc final
    simp [collect_go, streamed_last_contents]
  | cons v rest ih =>
    intro k acc final
    unfold collect_go
    have hs : streamed_last_contents (v :: rest) =
        (v.getLast?.bind (fun m => if m.content ≠ "" then some m.content else none)).toList ++
          streamed_last_contents rest := by
      simp [streamed_last_contents, List.filterMap_cons]
      cases v.getLast? with
      | none => simp
      | some m =>
        by_cases hc : m.content = "" <;> simp [hc]
    cases hv : v.getLast? with
    | none =>
      rw [ih]
      rw [hs, hv]
      simp
    | some m =>
      by_cases hc : m.content = ""
      · simp only [hc, ne_eq, not_true, if_false]
        rw [ih, hs, hv]
        simp [hc]
      · simp only [ne_eq, hc, not_false_iff, if_true]
        rw [ih, hs, hv]
        simp [hc, Option.some_bind, List.enumFrom_cons, List.getLastD_cons,
          -List.getLastD_eq_getLast?]

/-- C9 (amended): on a successful primary run, the gateway returns 200 whose
`all_messages` holds one `"agent"`-typed entry for each streamed state value
whose last message has non-empty content — this includes the echoed user
input and tool-result messages, not only AssistantMessages — in stream
order, stamped with successive clock values, and whose `response` is the
last such content (the empty string if there is none). -/
theorem C9_collects_streamed_last_contents
    (model : List Msg → Except String Msg)
    (invoke : ToolCall → Except String String)
    (clock : Nat → Nat) (fuel : Nat) (u : String) (hist : List HistEntry)
    (vals : List (List Msg)) (hu : u ≠ "")
    (hs : graph_stream model invoke fuel
        (convert_history hist ++ [Msg.user u]) = .ok vals) :
    chat model invoke clock fuel ⟨some u, hist⟩ =
      ⟨200, .success ((streamed_last_contents vals).getLastD "")
        ((List.enumFrom 0 (streamed_last_contents vals)).map
          (fun p => ⟨"agent", p.2, clock p.1⟩))⟩ := by
  have hbeq : (u == "") = false := beq_eq_false_iff_ne.mpr hu
  unfold chat
  simp only [Option.getD, hbeq, Bool.false_eq_true, if_false, hs]
  unfold collect
  rw [collect_go_spec]
  simp

/-- Witness for the amended C9 on a direct-answer run. -/
theorem C9_witness :
    chat modelAnswer42 invokeOk id 10 ⟨some "hi", []⟩ =
      ⟨200, .success
        ((streamed_last_contents
            [[Msg.user "hi"],
             [Msg.user "hi", Msg.assistant "The answer is 42." []]]).getLastD "")
        ((List.enumFrom 0 (streamed_last_contents
            [[Msg.user "hi"],
             [Msg.user "hi", Msg.assistant "The answer is 42." []]])).map
          (fun p => ⟨"agent", p.2, id p.1⟩))⟩ :=
  C9_collects_streamed_last_contents modelAnswer42 invokeOk id 10 "hi" []
    [[Msg.user "hi"], [Msg.user "hi", Msg.assistant "The answer is 42." []]]
    (by decide) rfl

/-- C9 counterexample: on the question `"hi"` answered directly by the model,
the returned `all_messages` contains two entries — the first being the echoed
user message `"hi"` — while the only AssistantMessage with non-empty content
produced during the run (whose final state is
`[user "hi", assistant "The answer is 42."]`) is the answer alone; so the
collected list is not the list of AssistantMessages with non-empty content. -/
theorem C9_counterexample :
    chat modelAnswer42 invokeOk id 10 ⟨some "hi", []⟩ =
      ⟨200, .success "The answer is 42."
        [⟨"agent", "hi", 0⟩, ⟨"agent", "The answer is 42.", 1⟩]⟩ ∧
    graph_stream modelAnswer42 invokeOk 10 [Msg.user "hi"] =
      .ok [[Msg.user "hi"],
           [Msg.user "hi", Msg.assistant "The answer is 42." []]] ∧
    assistant_contents [Msg.user "hi", Msg.assistant "The answer is 42." []] =
      ["The answer is 42."] ∧
    List.map CollectedMsg.content
        [⟨"agent", "hi", (0 : Nat)⟩, ⟨"agent", "The answer is 42.", 1⟩] ≠
      ["The answer is 42."] :=
  ⟨rfl, rfl, rfl, by decide⟩

end SqlAgenticChat
